import Mathlib

/-!
Verification of the serverless offline edge-lambda core: the CloudFront lifecycle
orchestration (`CloudFrontLifecycle.run`), the polymorphic origin client (`Origin`),
and the behavior registry (`BehaviorRouter`). Definitions are shallow embeddings of
the TypeScript source; collaborators that live outside the provided sources
(`FunctionSet`, `CacheService`, `utils`) are modelled from the specification and
marked as such in their doc comments.
-/

/-- Truthiness of an optional JS string: `undefined`/`null` and the empty string are
falsy. -/
def strFalsy : Option String → Bool
  | none => true
  | some s => s = ""

/-- Truthiness of an optional JS numeric value: `undefined`/`null`, `0` and `NaN`
are falsy (`NaN` is conflated with `0`, which is sound for every use below since
both are falsy and neither is a usable port). -/
def natOptFalsy : Option Nat → Bool
  | none => true
  | some n => n = 0

/-- JS short-circuit `a || b` on strings, where only the empty string is falsy. -/
def jsOrStr (a b : String) : String :=
  if a = "" then b else a

/-- JS object property assignment `obj[k] = v` on an insertion-ordered object,
modelled as an association list: an existing key keeps its position, a new key is
appended. -/
def setAssoc {α : Type} (l : List (String × α)) (k : String) (v : α) : List (String × α) :=
  if l.any (fun p => p.1 == k) then
    l.map (fun p => if p.1 == k then (k, v) else p)
  else l ++ [(k, v)]

/-- JS object property read `obj[k]` on an insertion-ordered object. -/
def lookupAssoc {α : Type} (l : List (String × α)) (k : String) : Option α :=
  (l.find? (fun p => p.1 == k)).map (·.2)

/-- In-place update of the value stored under a key, keeping order. -/
def updateAssoc {α : Type} (l : List (String × α)) (k : String) (f : α → α) : List (String × α) :=
  l.map (fun p => if p.1 == k then (p.1, f p.2) else p)

/-- Prefix test on strings by their character lists. -/
def strStartsWith (s p : String) : Bool :=
  p.data.isPrefixOf s.data

/-- The numeric value of an ASCII digit. -/
def charDigit? (c : Char) : Option Nat :=
  if 48 ≤ c.toNat && c.toNat ≤ 57 then some (c.toNat - 48) else none

/-- Accumulator loop of `strToNat?`. -/
def strToNatGo : List Char → Nat → Option Nat
  | [], acc => some acc
  | c :: cs, acc =>
    match charDigit? c with
    | some d => strToNatGo cs (acc * 10 + d)
    | none => none

/-- Parses a nonempty decimal digit string. -/
def strToNat? (s : String) : Option Nat :=
  match s.data with
  | [] => none
  | l => strToNatGo l 0

/-- ASCII lowercasing of one character. -/
def charToLower (c : Char) : Char :=
  if 65 ≤ c.toNat && c.toNat ≤ 90 then Char.ofNat (c.toNat + 32) else c

/-- ASCII lowercasing of a string. -/
def strToLower (s : String) : String :=
  String.mk (s.data.map charToLower)

/-- Drops the last `n` characters of a string. -/
def strDropRight (s : String) (n : Nat) : String :=
  String.mk (s.data.take (s.data.length - n))

/-- Splits a character list at the first occurrence of `c`: the prefix before it and,
when found, the remainder after it. -/
def splitAtFirst (c : Char) : List Char → List Char × Option (List Char)
  | [] => ([], none)
  | x :: xs =>
    if x = c then ([], some xs)
    else
      let r := splitAtFirst c xs
      (x :: r.1, r.2)

/-- Finds the first `://` separator, returning the characters before it and after it. -/
def findScheme : List Char → Option (List Char × List Char)
  | [] => none
  | ':' :: '/' :: '/' :: rest => some ([], rest)
  | x :: xs => (findScheme xs).map (fun r => (x :: r.1, r.2))

/-- Components produced by url parsing, as the source consumes them. `protocol`
keeps its trailing colon (for example `https:`), matching Node. -/
structure UrlParts where
  protocol : Option String := none
  hostname : Option String := none
  port : Option String := none
  path : Option String := none
  pathname : Option String := none
deriving Repr, DecidableEq

/-- Modelled from Node's legacy `url.parse`, which the source imports from `url`:
an absolute url splits into lowercased scheme and host, a port string, and a path
(query included, fragment excluded); a scheme-less string is all path. Userinfo
segments are not modelled. -/
def parseUrl (s : String) : UrlParts :=
  if s = "" then {} else
  let cs := s.data
  let schemeSplit :=
    match findScheme cs with
    | some (scheme, rest) =>
      if scheme = [] || scheme.contains '/' || scheme.contains '?' || scheme.contains '#' then
        none
      else some (scheme, rest)
    | none => none
  match schemeSplit with
  | some (scheme, rest) =>
    let authSplit := splitAtFirst '/' rest
    let hostSplit := splitAtFirst ':' authSplit.1
    let pathCs :=
      match authSplit.2 with
      | none => ['/']
      | some p => '/' :: p
    let noHash := (splitAtFirst '#' pathCs).1
    let pathnameCs := (splitAtFirst '?' noHash).1
    { protocol := some (strToLower (String.mk scheme) ++ ":")
      hostname := some (strToLower (String.mk hostSplit.1))
      port := hostSplit.2.bind (fun p => if p = [] then none else some (String.mk p))
      path := some (String.mk noHash)
      pathname := some (String.mk pathnameCs) }
  | none =>
    let noHash := (splitAtFirst '#' cs).1
    let pathnameCs := (splitAtFirst '?' noHash).1
    { path := some (String.mk noHash)
      pathname := some (String.mk pathnameCs) }

/-- Modelled from Node's `path.resolve` with the working directory taken to be the
filesystem root: absolute paths are kept, relative paths are absolutized. -/
def pathResolve (s : String) : String :=
  if strStartsWith s "/" then s else "/" ++ s

/-- Modelled from Node's `path.join` for the two-argument form used by the source. -/
def pathJoin (a b : String) : String :=
  if a = "" then b else a ++ "/" ++ b

/-- JS `port || dflt` where `port` is the string (or null) produced by url parsing:
null and the empty string fall back to the default, a digit string is its value. -/
def portOr (p : Option String) (dflt : Nat) : Nat :=
  match p with
  | none => dflt
  | some s => if s = "" then dflt else (strToNat? s).getD 0

/-- JS `parseInt` restricted to the numeric status strings the engine produces. -/
def jsParseInt (s : String) : Int :=
  match strToNat? s with
  | some n => (n : Int)
  | none => 0

/-- One `{key, value}` element of a CloudFront header group. -/
structure HeaderEntry where
  key : String
  value : String
deriving Repr, DecidableEq

/-- CloudFront headers: lowercased header name mapped to its `{key, value}` list,
in insertion order. -/
abbrev CFHeaders := List (String × List HeaderEntry)

/-- CloudFrontResultResponse as the source consumes it. -/
structure ResultResponse where
  status : String
  statusDescription : Option String := none
  headers : Option CFHeaders := none
  bodyEncoding : Option String := none
  body : Option String := none
deriving Repr, DecidableEq

/-- The fully populated custom-origin record synthesized in `onOriginRequest` and
read back in `Origin.getHttpResource` via `request.origin.custom`. A `port` of `0`
stands for the falsy JS values (`null` and `NaN`). -/
structure CustomOriginConfig where
  customHeaders : List (String × String) := []
  domainName : String := ""
  keepaliveTimeout : Nat := 5
  path : String := ""
  port : Nat := 0
  protocol : String := "http"
  readTimeout : Nat := 30
  sslProtocols : List String := ["TLSv1", "TLSv1.1", "TLSv1.2"]
deriving Repr, DecidableEq

/-- CloudFrontRequest: method, uri, headers, optional body, and the optional
synthesized origin block. -/
structure CFRequest where
  method : String := "GET"
  uri : String := "/"
  headers : CFHeaders := []
  body : Option String := none
  origin : Option CustomOriginConfig := none
deriving Repr, DecidableEq

/-- The per-request lifecycle event: `Records[0].cf` carries the request and, once
available, the in-progress response. -/
structure CFEvent where
  request : CFRequest
  response : Option ResultResponse := none
deriving Repr, DecidableEq

/-- The origin-configuration record handed to the `Origin` constructor; every field
may be absent. `port` is kept numeric (url-parse port strings are digit strings). -/
structure CustomOriginInput where
  domainName : Option String := none
  protocol : Option String := none
  port : Option Nat := none
  customHeaders : Option (List (String × String)) := none
  path : Option String := none
  keepaliveTimeout : Option Nat := none
  readTimeout : Option Nat := none
  sslProtocols : Option (List String) := none
deriving Repr, DecidableEq

/-- The four origin kinds; `noop` is the source's name for the `none` kind. -/
inductive OriginType where
  | http
  | https
  | file
  | noop
deriving Repr, DecidableEq

/-- The origin client. `type` is fixed at construction; no operation below ever
produces a modified `Origin`, so the kind is immutable by construction. -/
structure Origin where
  baseUrl : String
  type : OriginType
  customOrigin : Option CustomOriginInput
deriving Repr, DecidableEq

/-- Kind derivation from the constructor: empty target is `noop`, an `http://`
scheme is `http`, an `https://` scheme is `https`, anything else is a file path. -/
def originTypeOf (baseUrl : String) : OriginType :=
  if baseUrl = "" then .noop
  else if strStartsWith baseUrl "http://" then .http
  else if strStartsWith baseUrl "https://" then .https
  else .file

/-- The constructor resolves a file target to an absolute path and keeps every
other target verbatim. -/
def resolvedBase (baseUrl : String) : String :=
  if originTypeOf baseUrl = .file then pathResolve baseUrl else baseUrl

/-- The constructor's backfill of a supplied custom-origin record: domain, protocol
(colon stripped) and port are filled from the parsed target when unset. -/
def backfillCustomOrigin (base : String) (c : CustomOriginInput) : CustomOriginInput :=
  let p := parseUrl base
  let c := if strFalsy c.domainName then { c with domainName := p.hostname } else c
  let c :=
    if strFalsy c.protocol && p.protocol.isSome then
      { c with protocol := p.protocol.map (fun s => strDropRight s 1) }
    else c
  if natOptFalsy c.port then { c with port := p.port.bind strToNat? } else c

/-- The `Origin` constructor. -/
def Origin.make (baseUrl : String := "") (customOrigin : Option CustomOriginInput := none) :
    Origin :=
  let base := resolvedBase baseUrl
  { baseUrl := base
    type := originTypeOf baseUrl
    customOrigin := customOrigin.map (backfillCustomOrigin base) }

/-- Modelled from the spec: `toHttpHeaders` lives in `utils`, which is not among the
sources; per the spec the upstream request reuses the inbound headers, so each
CloudFront header group becomes its original key with the list of its values. -/
def toHttpHeaders (hs : CFHeaders) : List (String × List String) :=
  hs.map (fun g => ((g.2.headD { key := g.1, value := "" }).key, g.2.map (·.value)))

/-- The outgoing header object built in `getHttpResource`: each header reduced to
its first value via object assignment. -/
def outgoingHeaders (hs : CFHeaders) : List (String × String) :=
  (toHttpHeaders hs).foldl (fun acc i => setAssoc acc i.1 (i.2.headD "")) []

/-- The options record handed to the http/https request call. -/
structure RequestOptions where
  method : String
  protocol : Option String
  hostname : Option String
  port : Nat
  path : Option String
  headers : List (String × String)
deriving Repr, DecidableEq

/-- Target selection of `Origin.getHttpResource`: with a synthesized custom origin
on the request, protocol/domain/port come from it (port defaulting by protocol when
falsy); otherwise they come from the parsed origin target. -/
def Origin.getHttpOptions (o : Origin) (request : CFRequest) : RequestOptions :=
  let uri := parseUrl request.uri
  let base := parseUrl o.baseUrl
  let headers := outgoingHeaders request.headers
  match request.origin with
  | some custom =>
    { method := request.method
      protocol := some (custom.protocol ++ ":")
      hostname := some custom.domainName
      port := if custom.port = 0 then (if custom.protocol = "https" then 443 else 80)
              else custom.port
      path := uri.path
      headers :=
        setAssoc (custom.customHeaders.foldl (fun a p => setAssoc a p.1 p.2) headers)
          "connection" "Close" }
  | none =>
    { method := request.method
      protocol := base.protocol
      hostname := base.hostname
      port := portOr base.port (if base.protocol = some "https:" then 443 else 80)
      path := uri.path
      headers := setAssoc headers "connection" "Close" }

/-- Fetch failures as `retrieve` classifies them: the `Boom.notFound` signal versus
any other error carrying its message. -/
inductive FetchErr where
  | notFound
  | failure (message : String)
deriving Repr, DecidableEq

/-- The raw resource produced by a fetch before the engine shapes it into a
response. -/
structure Resource where
  headers : List (String × String) := []
  statusCode : Option Nat := none
  data : String := ""
deriving Repr, DecidableEq

/-- An upstream http response as observed by the response callback: header pairs,
status code, and the body chunks streamed before `close`. -/
structure UpstreamResponse where
  headers : List (String × String) := []
  statusCode : Option Nat := none
  chunks : List String := []
deriving Repr, DecidableEq

/-- The external world the origin client runs against: the filesystem read used by
a file origin and the http transport used by an http/https origin. Errors on either
are plain transport errors, never the engine's NotFound signal. -/
structure World where
  readFile : String → Except String String
  upstream : RequestOptions → Except String UpstreamResponse

/-- The upstream exchange issued by `getHttpResource`: the options record and the
request body written before `end`. The source calls `req.end()` directly after
creating the request, so no body is ever written. -/
structure UpstreamExchange where
  options : RequestOptions
  bodyWritten : Option String
deriving Repr, DecidableEq

/-- The single upstream request issued by an http/https fetch. -/
def Origin.issuedRequest (o : Origin) (request : CFRequest) : UpstreamExchange :=
  { options := o.getHttpOptions request, bodyWritten := none }

/-- File fetch: the request path is resolved under the base directory and read; a
null pathname is interpolated as the string `null`, as JS template strings do. -/
def Origin.getFileResource (o : Origin) (w : World) (key : String) : Except FetchErr Resource :=
  let fileName :=
    match (parseUrl key).pathname with
    | some p => p
    | none => "null"
  match w.readFile (o.baseUrl ++ "/" ++ fileName) with
  | .error m => .error (.failure m)
  | .ok content => .ok { headers := [], statusCode := none, data := content }

/-- Http fetch: issue the request built by `getHttpOptions` with no body and buffer
every body chunk into a single value before resolving. -/
def Origin.getHttpResource (o : Origin) (w : World) (request : CFRequest) :
    Except FetchErr Resource :=
  match w.upstream (o.getHttpOptions request) with
  | .error m => .error (.failure m)
  | .ok res =>
    .ok { headers := res.headers, statusCode := res.statusCode, data := String.join res.chunks }

/-- Kind dispatch of a fetch: files and http targets go to their clients, a `noop`
origin always fails with NotFound. -/
def Origin.getResource (o : Origin) (w : World) (request : CFRequest) : Except FetchErr Resource :=
  match o.type with
  | .file => o.getFileResource w request.uri
  | .http => o.getHttpResource w request
  | .https => o.getHttpResource w request
  | .noop => .error .notFound

/-- The `addHeader` helper: a nonempty key is stored under its lowercased form with
the original key and stringified value. -/
def addHeader (hs : CFHeaders) (key value : String) : CFHeaders :=
  if key = "" then hs else setAssoc hs (strToLower key) [{ key := key, value := value }]

/-- The header object `retrieve` builds from fetched resource headers. -/
def resourceHeadersToCF (hs : List (String × String)) : CFHeaders :=
  hs.foldl (fun acc kv => addHeader acc kv.1 kv.2) []

/-- Modelled from the boom library's JS semantics: the catch block tests
`err instanceof Boom.notFound`, but `Boom.notFound` is a factory function, not a
class — no Boom error has its prototype on the chain — so the test is false for
every error, including the NotFound a noop origin throws. -/
def instanceofBoomNotFound : FetchErr → Bool := fun _ => false

/-- The `err.message` the 500 branch reads: a Boom notFound error is constructed
with no message, so its message is empty; a transport or filesystem failure
carries its own message. -/
def FetchErr.message : FetchErr → String
  | .notFound => ""
  | .failure m => m

/-- Fetch-stage classification: a successful resource becomes a response with its
status (defaulting to 0), converted headers, text encoding and buffered body; a
failure passing the instanceof test would become a bare 404, but since that test
never matches, every failure becomes a 500 carrying the error's message. -/
def Origin.retrieve (o : Origin) (w : World) (event : CFEvent) : ResultResponse :=
  match o.getResource w event.request with
  | .ok res =>
    { status := toString (res.statusCode.getD 0)
      statusDescription := some ""
      headers := some (resourceHeadersToCF res.headers)
      bodyEncoding := some "text"
      body := some res.data }
  | .error err =>
    if instanceofBoomNotFound err then { status := "404" }
    else { status := "500", statusDescription := some err.message }

/-- Errors thrown by stage handlers or the transport, as the listener distinguishes
them: Boom errors carry an output status code, error name and message; anything
else is a plain error. The engine's internal NoResult signal is not an error value
here, it is modelled structurally by the `StageResult.next` constructor. -/
inductive JsError where
  | boom (statusCode : Nat) (error : String) (message : String)
  | plain (message : String)
deriving Repr, DecidableEq

/-- Modelled from the spec: the result of invoking a request-stage handler through
`FunctionSet` (not among the sources) is either the request to continue with or a
terminal response, discriminated by `isResponseResult` in the source. -/
inductive StageResult where
  | next (request : CFRequest)
  | terminal (response : ResultResponse)
deriving Repr, DecidableEq

/-- The `isResponseResult` discrimination from `utils`. -/
def isResponseResult : StageResult → Bool
  | .next _ => false
  | .terminal _ => true

/-- Modelled from the spec: a `FunctionSet` groups the stage callables the lifecycle
invokes (absence of a handler means pass-through inside the callable) together with
the Origin bound to the pattern. Request-stage callables yield a `StageResult`;
response-stage callables yield the transformed response (`viewerResponse` may
resolve with nothing, which the source types as void). Any callable may throw. -/
structure FunctionSet where
  viewerRequest : CFEvent → Except JsError StageResult
  originRequest : CFEvent → Except JsError StageResult
  originResponse : CFEvent → Except JsError ResultResponse
  viewerResponse : CFEvent → Except JsError (Option ResultResponse)
  origin : Origin

/-- Modelled from the spec: a persisted cache entry holds serialized status, headers
and body, sufficient to reconstruct a response without re-invoking origin. -/
structure CacheEntry where
  statusCode : String
  headers : CFHeaders := []
  body : String := ""
deriving Repr, DecidableEq

/-- Modelled from the spec: `toResultResponse` from `utils` (not among the sources)
materializes a response from a cache entry. -/
def toResultResponse (c : CacheEntry) : ResultResponse :=
  { status := c.statusCode, headers := some c.headers, body := some c.body }

/-- Modelled from the spec: `combineResult` from `utils` (not among the sources)
produces the event carrying the request together with the in-progress response. -/
def combineResult (e : CFEvent) (r : ResultResponse) : CFEvent :=
  { e with response := some r }

/-- The options the lifecycle consults. -/
structure ServerlessOptions where
  disableCache : Bool
deriving Repr, DecidableEq

/-- Everything one lifecycle run closes over: the options, the matched function
set, the external world for origin fetches, and the cache lookup (the
`CacheService`, which is not among the sources, enters only through this lookup and
through the recorded `saveToCache` calls in the trace). -/
structure LifecycleCtx where
  options : ServerlessOptions
  fnSet : FunctionSet
  world : World
  retrieveFromCache : CFEvent → Option CacheEntry

/-- Observable effects of one lifecycle run: how often each collaborator was
invoked and the exact arguments of every `saveToCache` call. -/
structure Trace where
  cacheLookups : Nat := 0
  originRequestCalls : Nat := 0
  originFetches : Nat := 0
  originResponseCalls : Nat := 0
  viewerResponseCalls : Nat := 0
  saves : List CFEvent := []
deriving Repr, DecidableEq

deriving instance DecidableEq for Except

/-- Outcome of a run: the settled promise (a response, the void resolution, or the
propagated error) together with the effect trace. -/
structure RunRes where
  outcome : Except JsError (Option ResultResponse)
  trace : Trace
deriving Repr, DecidableEq

/-- Adds the cache lookup performed on the miss path to a trace. -/
def bumpLookup (r : RunRes) : RunRes :=
  { r with trace := { r.trace with cacheLookups := r.trace.cacheLookups + 1 } }

/-- The custom-origin record synthesized in `onOriginRequest`: defaults (protocol
from the parsed request uri, `Number(port)`, empty domain and path, fixed timeouts
and ssl protocols) overridden by the origin's backfilled configuration, with an
empty domain then falling back to the uri's hostname. -/
def synthCustom (co : CustomOriginInput) (uri : String) : CustomOriginConfig :=
  let p := parseUrl uri
  let proto := if p.protocol = some "https:" then "https" else "http"
  let custom : CustomOriginConfig :=
    { customHeaders := co.customHeaders.getD []
      domainName := co.domainName.getD ""
      keepaliveTimeout := co.keepaliveTimeout.getD 5
      path := co.path.getD ""
      port := co.port.getD (match p.port with
        | none => 0
        | some s => (strToNat? s).getD 0)
      protocol := co.protocol.getD proto
      readTimeout := co.readTimeout.getD 30
      sslProtocols := co.sslProtocols.getD ["TLSv1", "TLSv1.1", "TLSv1.2"] }
  if custom.domainName = "" then { custom with domainName := p.hostname.getD "" } else custom

/-- The event mutation at the top of `onOriginRequest`: when the bound origin
carries custom configuration, the synthesized record is attached to the request. -/
def synthEvent (ctx : LifecycleCtx) (e : CFEvent) : CFEvent :=
  match ctx.fnSet.origin.customOrigin with
  | none => e
  | some co => { e with request := { e.request with origin := some (synthCustom co e.request.uri) } }

/-- The `delete request.origin` statement in `run`. -/
def deleteOrigin (e : CFEvent) : CFEvent :=
  { e with request := { e.request with origin := none } }

/-- The tail of `run` once `onOriginRequest` has resolved with `resp`: the request
origin is deleted, the combined event is written to cache, and the viewer-response
handler produces the final outcome. `fetches` and `respCalls` record whether the
resolution came through an origin round trip or the origin-request short-circuit. -/
def afterOriginRequest (ctx : LifecycleCtx) (e : CFEvent) (resp : ResultResponse)
    (fetches respCalls : Nat) : RunRes :=
  let e := deleteOrigin e
  { outcome := ctx.fnSet.viewerResponse (combineResult e resp)
    trace :=
      { originRequestCalls := 1
        originFetches := fetches
        originResponseCalls := respCalls
        viewerResponseCalls := 1
        saves := [combineResult e resp] } }

/-- The event handed to the origin-response handler: the request as the
origin-request handler left it, combined with the response fetched from the
origin. -/
def fetchEvent (ctx : LifecycleCtx) (e1 : CFEvent) (req : CFRequest) : CFEvent :=
  combineResult { e1 with request := req }
    (ctx.fnSet.origin.retrieve ctx.world { e1 with request := req })

/-- `onOriginRequest` together with the tail of `run`: synthesize the custom origin,
invoke the origin-request handler; a terminal response resolves immediately (no
fetch, no origin-response call), otherwise the origin is fetched and the
origin-response handler transforms the result; in both resolving cases `run` then
caches and runs viewer-response. -/
def runFromOriginRequest (ctx : LifecycleCtx) (e : CFEvent) : RunRes :=
  let e1 := synthEvent ctx e
  match ctx.fnSet.originRequest e1 with
  | .error err => { outcome := .error err, trace := { originRequestCalls := 1 } }
  | .ok (.terminal resp) => afterOriginRequest ctx e1 resp 0 0
  | .ok (.next req) =>
    match ctx.fnSet.originResponse (fetchEvent ctx e1 req) with
    | .error err =>
      { outcome := .error err
        trace := { originRequestCalls := 1, originFetches := 1, originResponseCalls := 1 } }
    | .ok resp => afterOriginRequest ctx { e1 with request := req } resp 1 1

/-- `onCache` together with the continuation of `run`: with caching disabled the
stage is skipped entirely (no lookup); a miss continues to origin-request; a hit
materializes the stored entry and goes straight to viewer-response. -/
def runFromCache (ctx : LifecycleCtx) (e : CFEvent) : RunRes :=
  if ctx.options.disableCache then runFromOriginRequest ctx e
  else
    match ctx.retrieveFromCache e with
    | none => bumpLookup (runFromOriginRequest ctx e)
    | some entry =>
      { outcome := ctx.fnSet.viewerResponse (combineResult e (toResultResponse entry))
        trace := { cacheLookups := 1, viewerResponseCalls := 1 } }

/-- `CloudFrontLifecycle.run`: viewer-request first — a terminal response goes
straight to viewer-response (its NoResult signal instead falls through to the cache
stage); handler errors other than NoResult propagate. -/
def CloudFrontLifecycle.run (ctx : LifecycleCtx) (e : CFEvent) : RunRes :=
  match ctx.fnSet.viewerRequest e with
  | .error err => { outcome := .error err, trace := {} }
  | .ok (.terminal resp) =>
    { outcome := ctx.fnSet.viewerResponse (combineResult e resp)
      trace := { viewerResponseCalls := 1 } }
  | .ok (.next req) => runFromCache ctx { e with request := req }

/-- A serverless function's edge binding (either style). -/
structure EdgeEventOptions where
  eventType : String := ""
  pathPattern : String := ""
deriving Repr, DecidableEq

/-- A configured serverless function as `extractBehaviors` consumes it. -/
structure ServerlessFunction where
  handler : String := ""
  lambdaAtEdge : Option EdgeEventOptions := none
  events : List (Option EdgeEventOptions) := []
deriving Repr, DecidableEq

/-- One registered behavior: the pattern, the per-stage handler references
(last registration per stage wins), and the bound origin. -/
structure Behavior where
  pattern : String
  handlers : List (String × String) := []
  origin : Option Origin := none
deriving Repr, DecidableEq

/-- `extractBehaviors`: group the edge-bound functions into behaviors keyed by
pattern (first occurrence fixes the position), register each handler under its
event type, and guarantee a `*` entry exists afterwards. Handler registration
(`FunctionSet.setHandler`, not among the sources) is modelled from the spec as
last-write-wins per stage. -/
def extractBehaviors (functions : List (String × ServerlessFunction))
    (origins : List (String × Origin)) (basePath : String) : List (String × Behavior) :=
  let lambdaDefs := functions.filter (fun f => f.2.lambdaAtEdge.isSome || f.2.events.any (·.isSome))
  let behaviors := lambdaDefs.foldl (fun behaviors f =>
    let fnDef := f.2
    let customDef := fnDef.lambdaAtEdge
    let nativeDef := ((fnDef.events.find? (·.isSome)).bind id).getD {}
    let pattern :=
      jsOrStr (match customDef with | some c => c.pathPattern | none => "")
        (jsOrStr nativeDef.pathPattern "*")
    let behaviors :=
      if (lookupAssoc behaviors pattern).isSome then behaviors
      else behaviors ++ [(pattern, { pattern := pattern, origin := lookupAssoc origins pattern })]
    let eventType :=
      jsOrStr (match customDef with | some c => c.eventType | none => "") nativeDef.eventType
    if eventType = "" then behaviors
    else
      updateAssoc behaviors pattern (fun b =>
        { b with handlers := setAssoc b.handlers eventType (pathJoin basePath fnDef.handler) })
    ) []
  if (lookupAssoc behaviors "*").isSome then behaviors
  else behaviors ++ [("*", { pattern := "*", origin := lookupAssoc origins "*" })]

/-- Modelled from the spec: a pattern is a path-matching expression
(`FunctionSet.regex`, not among the sources) where `*` matches any character
sequence and every other character matches itself. -/
def globMatch : List Char → List Char → Bool
  | [], [] => true
  | [], _ :: _ => false
  | '*' :: ps, [] => globMatch ps []
  | '*' :: ps, c :: cs => globMatch ps (c :: cs) || globMatch ('*' :: ps) cs
  | p :: ps, c :: cs => p == c && globMatch ps cs
  | _ :: _, [] => false
termination_by ps cs => (cs.length, ps.length)

/-- Pattern matching of a behavior pattern against a request pathname. -/
def patternMatches (pattern path : String) : Bool :=
  globMatch pattern.data path.data

/-- The pathname of a request url, as `new URL(url, base)` exposes it for
server-style urls. -/
def urlPathname (u : String) : String :=
  ((parseUrl u).pathname).getD "/"

/-- `BehaviorRouter.match` (named `matchBehavior` because `match` is reserved in
Lean): a missing or empty request url yields nothing; otherwise the registered
behaviors are scanned in registration order against the url's pathname and the
first match wins, falling back to the `*` entry. -/
def BehaviorRouter.matchBehavior (behaviors : List (String × Behavior)) (url : Option String) :
    Option Behavior :=
  match url with
  | none => none
  | some u =>
    if u = "" then none
    else
      let pathname := urlPathname u
      match behaviors.find? (fun b => patternMatches b.2.pattern pathname) with
      | some b => some b.2
      | none => lookupAssoc behaviors "*"

/-- What the listener writes back to the client for one request. -/
structure SentResponse where
  statusCode : Int
  statusMessage : String
  body : String
deriving Repr, DecidableEq

/-- `BehaviorRouter.handleError`: a Boom error's output status code and error name
become the transport status line and the message becomes the body. -/
def BehaviorRouter.handleError (statusCode : Nat) (error message : String) : SentResponse :=
  { statusCode := statusCode, statusMessage := error, body := message }

/-- The listener's dispatch on the settled lifecycle promise: a response is written
out; a void resolution raises `Boom.internal` which is caught and mapped by
`handleError`; a rejection is mapped by `handleError` exactly when it is a Boom
error, and is otherwise swallowed with no response written at all. -/
def BehaviorRouter.respond (outcome : Except JsError (Option ResultResponse)) :
    Option SentResponse :=
  match outcome with
  | .ok (some resp) =>
    some { statusCode := jsParseInt resp.status
           statusMessage := resp.statusDescription.getD ""
           body := resp.body.getD "" }
  | .ok none => some (BehaviorRouter.handleError 500 "Internal Server Error" "")
  | .error (.boom sc er m) => some (BehaviorRouter.handleError sc er m)
  | .error (.plain _) => none

/-- A world in which every filesystem read and every upstream request fails. -/
def trivialWorld : World :=
  { readFile := fun _ => .error "ENOENT", upstream := fun _ => .error "ECONNREFUSED" }

/-- A world whose upstream always answers 200 with a two-chunk body. -/
def world9 : World :=
  { readFile := fun _ => .error "ENOENT"
    upstream := fun _ => .ok { statusCode := some 200, chunks := ["he", "llo"] } }

/-- A bare 200 response. -/
def response200 : ResultResponse := { status := "200" }

/-- A bare 204 response, used as a distinguishable viewer-response transform. -/
def response204 : ResultResponse := { status := "204" }

/-- A request event for `/index.html`. -/
def sampleEvent : CFEvent := { request := { uri := "/index.html" } }

/-- A request event for `/b`. -/
def eventB : CFEvent := { request := { uri := "/b" } }

/-- A request event for `/c2`. -/
def c2Event : CFEvent := { request := { uri := "/c2" } }

/-- A request event for `/c2b`. -/
def c2EventB : CFEvent := { request := { uri := "/c2b" } }

/-- A request event for `/c4`. -/
def eventC : CFEvent := { request := { uri := "/c4" } }

/-- A request event for `/hit`. -/
def hitEventB : CFEvent := { request := { uri := "/hit" } }

/-- A function set whose origin-request handler short-circuits with a 200 and whose
viewer-response handler replaces any response by a 204. -/
def c1FnSet : FunctionSet :=
  { viewerRequest := fun e => .ok (.next e.request)
    originRequest := fun _ => .ok (.terminal response200)
    originResponse := fun e => .ok (e.response.getD response200)
    viewerResponse := fun _ => .ok (some response204)
    origin := Origin.make "" none }

/-- Caching-disabled context around `c1FnSet`. -/
def c1Ctx : LifecycleCtx :=
  { options := { disableCache := true }
    fnSet := c1FnSet
    world := trivialWorld
    retrieveFromCache := fun _ => none }

/-- A function set whose origin-request handler short-circuits with a 200 and whose
response handlers pass the event's response through. -/
def shortCircuitFnSet : FunctionSet :=
  { viewerRequest := fun e => .ok (.next e.request)
    originRequest := fun _ => .ok (.terminal response200)
    originResponse := fun e => .ok (e.response.getD response200)
    viewerResponse := fun e => .ok e.response
    origin := Origin.make "" none }

/-- Caching-disabled context around `shortCircuitFnSet`. -/
def c2Ctx : LifecycleCtx :=
  { options := { disableCache := true }
    fnSet := shortCircuitFnSet
    world := trivialWorld
    retrieveFromCache := fun _ => none }

/-- A function set whose viewer-request handler short-circuits with a 200. -/
def c3FnSet : FunctionSet :=
  { viewerRequest := fun _ => .ok (.terminal response200)
    originRequest := fun e => .ok (.next e.request)
    originResponse := fun e => .ok (e.response.getD response200)
    viewerResponse := fun e => .ok e.response
    origin := Origin.make "" none }

/-- Caching-enabled context around `c3FnSet` with an empty cache. -/
def c3Ctx : LifecycleCtx :=
  { options := { disableCache := false }
    fnSet := c3FnSet
    world := trivialWorld
    retrieveFromCache := fun _ => none }

/-- A stored cache entry. -/
def cacheEntryA : CacheEntry := { statusCode := "200", body := "cached" }

/-- Caching-enabled context around `shortCircuitFnSet` whose cache always hits. -/
def c4HitCtx : LifecycleCtx :=
  { options := { disableCache := false }
    fnSet := shortCircuitFnSet
    world := trivialWorld
    retrieveFromCache := fun _ => some cacheEntryA }

/-- A context whose viewer-request handler throws a plain (non-Boom) error. -/
def c10PlainCtx : LifecycleCtx :=
  { options := { disableCache := true }
    fnSet :=
      { viewerRequest := fun _ => .error (.plain "fail")
        originRequest := fun e => .ok (.next e.request)
        originResponse := fun e => .ok (e.response.getD response200)
        viewerResponse := fun e => .ok e.response
        origin := Origin.make "" none }
    world := trivialWorld
    retrieveFromCache := fun _ => none }

/-- A context whose viewer-request handler throws a Boom 403. -/
def c10BoomCtx : LifecycleCtx :=
  { options := { disableCache := true }
    fnSet :=
      { viewerRequest := fun _ => .error (.boom 403 "Forbidden" "nope")
        originRequest := fun e => .ok (.next e.request)
        originResponse := fun e => .ok (e.response.getD response200)
        viewerResponse := fun e => .ok e.response
        origin := Origin.make "" none }
    world := trivialWorld
    retrieveFromCache := fun _ => none }

/-- An https origin with an explicit port in its target. -/
def origin7 : Origin := Origin.make "https://origin.example:8443/base" none

/-- A request without synthesized custom-origin parameters. -/
def request7 : CFRequest := { uri := "/a" }

/-- Synthesized custom-origin parameters with an explicit port. -/
def custom7 : CustomOriginConfig :=
  { domainName := "custom.example", protocol := "https", port := 9000 }

/-- A request carrying synthesized custom-origin parameters. -/
def request7c : CFRequest := { uri := "/a", origin := some custom7 }

/-- C3: when the viewer-request handler returns a terminal response, `run` performs
no cache lookup and no origin fetch, and its result is the viewer-response
transformation of that response. -/
theorem run_viewer_request_short_circuit (ctx : LifecycleCtx) (e : CFEvent)
    (resp : ResultResponse)
    (h : ctx.fnSet.viewerRequest e = .ok (.terminal resp)) :
    (CloudFrontLifecycle.run ctx e).outcome =
      ctx.fnSet.viewerResponse (combineResult e resp) ∧
    (CloudFrontLifecycle.run ctx e).trace.cacheLookups = 0 ∧
    (CloudFrontLifecycle.run ctx e).trace.originFetches = 0 := by
  refine ⟨?_, ?_, ?_⟩ <;> simp [CloudFrontLifecycle.run, h]

/-- Witness for C3 at a concrete context and event. -/
theorem run_viewer_request_short_circuit_witness :
    (CloudFrontLifecycle.run c3Ctx sampleEvent).outcome =
      c3Ctx.fnSet.viewerResponse (combineResult sampleEvent response200) ∧
    (CloudFrontLifecycle.run c3Ctx sampleEvent).trace.cacheLookups = 0 ∧
    (CloudFrontLifecycle.run c3Ctx sampleEvent).trace.originFetches = 0 :=
  run_viewer_request_short_circuit c3Ctx sampleEvent response200 rfl

/-- C5 (code bug): a fetch against a noop (kind-none) origin does fail with
NotFound, and other failures do become 500 responses carrying their description,
but the NotFound classification never fires — the instanceof test against the Boom
factory is always false, so the engine returns a 500 with the error's empty
message instead of the intended 404, and the 404 branch is dead code. -/
theorem noop_fetch_notfound_yields_500 :
    (Origin.make "" none).getResource trivialWorld sampleEvent.request =
      .error .notFound ∧
    (Origin.make "" none).retrieve trivialWorld sampleEvent =
      { status := "500", statusDescription := some "" } ∧
    (Origin.make "/srv/files" none).retrieve trivialWorld sampleEvent =
      { status := "500", statusDescription := some "ENOENT" } :=
  ⟨by decide, by decide, by decide⟩

/-- C9: an http/https fetch writes no request body upstream — the issued exchange
carries no body, and the built options do not depend on the inbound body — and the
upstream response body is buffered into a single value before the fetch resolves. -/
theorem http_fetch_no_request_body_and_buffering (o : Origin) (w : World) (r : CFRequest)
    (b : Option String) :
    (o.issuedRequest r).bodyWritten = none ∧
    o.getHttpOptions { r with body := b } = o.getHttpOptions r ∧
    (∀ res, w.upstream (o.getHttpOptions r) = .ok res →
      o.getHttpResource w r =
        .ok { headers := res.headers, statusCode := res.statusCode,
              data := String.join res.chunks }) := by
  refine ⟨rfl, rfl, ?_⟩
  intro res h
  unfold Origin.getHttpResource
  rw [h]

/-- Witness for C9: a two-chunk upstream body arrives as one buffered value. -/
theorem http_fetch_no_request_body_and_buffering_witness :
    (Origin.make "http://upstream.example" none).getHttpResource world9 { uri := "/a" } =
      .ok { headers := [], statusCode := some 200, data := "hello" } :=
  (http_fetch_no_request_body_and_buffering (Origin.make "http://upstream.example" none)
    world9 { uri := "/a" } none).2.2 { statusCode := some 200, chunks := ["he", "llo"] } rfl

/-- C10: when the lifecycle run rejects with a non-Boom error the listener swallows
it and writes no response at all; a Boom rejection is mapped through `handleError`
to its output status code, error name and message. -/
theorem listener_error_dispatch (ctx : LifecycleCtx) (e : CFEvent) :
    (∀ m, (CloudFrontLifecycle.run ctx e).outcome = .error (.plain m) →
      BehaviorRouter.respond (CloudFrontLifecycle.run ctx e).outcome = none) ∧
    (∀ sc er m, (CloudFrontLifecycle.run ctx e).outcome = .error (.boom sc er m) →
      BehaviorRouter.respond (CloudFrontLifecycle.run ctx e).outcome =
        some (BehaviorRouter.handleError sc er m)) := by
  constructor
  · intro m h
    rw [h]
    rfl
  · intro sc er m h
    rw [h]
    rfl

/-- Witness for C10: a plain rejection produces no response, a Boom 403 rejection
is mapped by `handleError`. -/
theorem listener_error_dispatch_witness :
    BehaviorRouter.respond (CloudFrontLifecycle.run c10PlainCtx sampleEvent).outcome = none ∧
    BehaviorRouter.respond (CloudFrontLifecycle.run c10BoomCtx sampleEvent).outcome =
      some (BehaviorRouter.handleError 403 "Forbidden" "nope") :=
  ⟨(listener_error_dispatch c10PlainCtx sampleEvent).1 "fail" rfl,
   (listener_error_dispatch c10BoomCtx sampleEvent).2 403 "Forbidden" "nope" rfl⟩

/-- Every branch of the origin-request stage records exactly one origin-request
handler invocation. -/
theorem runFromOriginRequest_originRequestCalls (ctx : LifecycleCtx) (e : CFEvent) :
    (runFromOriginRequest ctx e).trace.originRequestCalls = 1 := by
  simp only [runFromOriginRequest]
  split
  · rfl
  · rfl
  · split
    · rfl
    · rfl

/-- The origin-request stage never performs a cache lookup. -/
theorem runFromOriginRequest_cacheLookups (ctx : LifecycleCtx) (e : CFEvent) :
    (runFromOriginRequest ctx e).trace.cacheLookups = 0 := by
  simp only [runFromOriginRequest]
  split
  · rfl
  · rfl
  · split
    · rfl
    · rfl

/-- C1 counterexample: a run whose origin-request handler short-circuits with a 200
still performs the cache write and still invokes the viewer-response handler, and
returns the viewer-response transform (a 204) instead of the handler's response. -/
theorem origin_request_short_circuit_counterexample :
    (CloudFrontLifecycle.run c1Ctx sampleEvent).trace.saves.length = 1 ∧
    (CloudFrontLifecycle.run c1Ctx sampleEvent).trace.viewerResponseCalls = 1 ∧
    (CloudFrontLifecycle.run c1Ctx sampleEvent).outcome = .ok (some response204) ∧
    response204 ≠ response200 :=
  ⟨rfl, rfl, rfl, by decide⟩

/-- C1 (amended): when the origin-request handler returns a terminal response, the
origin fetch and the origin-response handler are skipped, but the run still writes
that response to cache and still invokes the viewer-response handler, whose output
is the run's result. -/
theorem run_origin_request_short_circuit (ctx : LifecycleCtx) (e : CFEvent)
    (req : CFRequest) (resp : ResultResponse)
    (hv : ctx.fnSet.viewerRequest e = .ok (.next req))
    (hmiss : ctx.options.disableCache = true ∨
      ctx.retrieveFromCache { e with request := req } = none)
    (ho : ctx.fnSet.originRequest (synthEvent ctx { e with request := req }) =
      .ok (.terminal resp)) :
    (CloudFrontLifecycle.run ctx e).trace.originFetches = 0 ∧
    (CloudFrontLifecycle.run ctx e).trace.originResponseCalls = 0 ∧
    (CloudFrontLifecycle.run ctx e).trace.saves =
      [combineResult (deleteOrigin (synthEvent ctx { e with request := req })) resp] ∧
    (CloudFrontLifecycle.run ctx e).trace.viewerResponseCalls = 1 ∧
    (CloudFrontLifecycle.run ctx e).outcome =
      ctx.fnSet.viewerResponse
        (combineResult (deleteOrigin (synthEvent ctx { e with request := req })) resp) := by
  rcases hmiss with hd | hm
  · refine ⟨?_, ?_, ?_, ?_, ?_⟩ <;>
      simp [CloudFrontLifecycle.run, hv, runFromCache, hd, runFromOriginRequest, ho,
        afterOriginRequest]
  · by_cases hd : ctx.options.disableCache = true
    · refine ⟨?_, ?_, ?_, ?_, ?_⟩ <;>
        simp [CloudFrontLifecycle.run, hv, runFromCache, hd, runFromOriginRequest, ho,
          afterOriginRequest]
    · refine ⟨?_, ?_, ?_, ?_, ?_⟩ <;>
        simp [CloudFrontLifecycle.run, hv, runFromCache, hd, hm, bumpLookup,
          runFromOriginRequest, ho, afterOriginRequest]

/-- Witness for the amended C1 at a concrete context and event. -/
theorem run_origin_request_short_circuit_witness :
    (CloudFrontLifecycle.run c1Ctx eventB).trace.originFetches = 0 ∧
    (CloudFrontLifecycle.run c1Ctx eventB).trace.originResponseCalls = 0 ∧
    (CloudFrontLifecycle.run c1Ctx eventB).trace.saves =
      [combineResult (deleteOrigin (synthEvent c1Ctx { eventB with request := eventB.request }))
        response200] ∧
    (CloudFrontLifecycle.run c1Ctx eventB).trace.viewerResponseCalls = 1 ∧
    (CloudFrontLifecycle.run c1Ctx eventB).outcome =
      c1Ctx.fnSet.viewerResponse
        (combineResult (deleteOrigin (synthEvent c1Ctx { eventB with request := eventB.request }))
          response200) :=
  run_origin_request_short_circuit c1Ctx eventB eventB.request response200 rfl (Or.inl rfl) rfl

/-- C2 counterexample: a run whose origin-request handler short-circuits performs a
cache write with zero origin fetches and zero origin-response invocations — a write
without any origin round trip. -/
theorem cache_write_without_origin_round_trip :
    (CloudFrontLifecycle.run c2Ctx c2Event).trace.saves.length = 1 ∧
    (CloudFrontLifecycle.run c2Ctx c2Event).trace.originFetches = 0 ∧
    (CloudFrontLifecycle.run c2Ctx c2Event).trace.originResponseCalls = 0 :=
  ⟨rfl, rfl, rfl⟩

/-- C2 (amended): a cache write happens exactly when the origin-request stage
resolves — whether through the origin-request short-circuit or a completed origin
round trip (including fetches classified into 404/500 responses) — and never on a
viewer-request short-circuit, a viewer-request error, a cache hit, or a rejected
origin-request or origin-response handler. -/
theorem run_cache_write_characterization (ctx : LifecycleCtx) (e : CFEvent) :
    (∀ resp, ctx.fnSet.viewerRequest e = .ok (.terminal resp) →
      (CloudFrontLifecycle.run ctx e).trace.saves = []) ∧
    (∀ err, ctx.fnSet.viewerRequest e = .error err →
      (CloudFrontLifecycle.run ctx e).trace.saves = []) ∧
    (∀ req entry, ctx.fnSet.viewerRequest e = .ok (.next req) →
      ctx.options.disableCache = false →
      ctx.retrieveFromCache { e with request := req } = some entry →
      (CloudFrontLifecycle.run ctx e).trace.saves = []) ∧
    (∀ req err, ctx.fnSet.viewerRequest e = .ok (.next req) →
      (ctx.options.disableCache = true ∨
        ctx.retrieveFromCache { e with request := req } = none) →
      ctx.fnSet.originRequest (synthEvent ctx { e with request := req }) = .error err →
      (CloudFrontLifecycle.run ctx e).trace.saves = []) ∧
    (∀ req req2 err, ctx.fnSet.viewerRequest e = .ok (.next req) →
      (ctx.options.disableCache = true ∨
        ctx.retrieveFromCache { e with request := req } = none) →
      ctx.fnSet.originRequest (synthEvent ctx { e with request := req }) = .ok (.next req2) →
      ctx.fnSet.originResponse
        (fetchEvent ctx (synthEvent ctx { e with request := req }) req2) = .error err →
      (CloudFrontLifecycle.run ctx e).trace.saves = []) ∧
    (∀ req resp, ctx.fnSet.viewerRequest e = .ok (.next req) →
      (ctx.options.disableCache = true ∨
        ctx.retrieveFromCache { e with request := req } = none) →
      ctx.fnSet.originRequest (synthEvent ctx { e with request := req }) =
        .ok (.terminal resp) →
      (CloudFrontLifecycle.run ctx e).trace.saves.length = 1 ∧
      (CloudFrontLifecycle.run ctx e).trace.originFetches = 0) ∧
    (∀ req req2 resp, ctx.fnSet.viewerRequest e = .ok (.next req) →
      (ctx.options.disableCache = true ∨
        ctx.retrieveFromCache { e with request := req } = none) →
      ctx.fnSet.originRequest (synthEvent ctx { e with request := req }) = .ok (.next req2) →
      ctx.fnSet.originResponse
        (fetchEvent ctx (synthEvent ctx { e with request := req }) req2) = .ok resp →
      (CloudFrontLifecycle.run ctx e).trace.saves.length = 1 ∧
      (CloudFrontLifecycle.run ctx e).trace.originFetches = 1) := by
  have hstep : ∀ req, ctx.fnSet.viewerRequest e = .ok (.next req) →
      (ctx.options.disableCache = true ∨
        ctx.retrieveFromCache { e with request := req } = none) →
      (CloudFrontLifecycle.run ctx e).trace.saves =
        (runFromOriginRequest ctx { e with request := req }).trace.saves ∧
      (CloudFrontLifecycle.run ctx e).trace.originFetches =
        (runFromOriginRequest ctx { e with request := req }).trace.originFetches := by
    intro req hv hmiss
    rcases hmiss with hd | hm
    · constructor <;> simp [CloudFrontLifecycle.run, hv, runFromCache, hd]
    · by_cases hd : ctx.options.disableCache = true
      · constructor <;> simp [CloudFrontLifecycle.run, hv, runFromCache, hd]
      · constructor <;> simp [CloudFrontLifecycle.run, hv, runFromCache, hd, hm, bumpLookup]
  refine ⟨?_, ?_, ?_, ?_, ?_, ?_, ?_⟩
  · intro resp hv
    simp [CloudFrontLifecycle.run, hv]
  · intro err hv
    simp [CloudFrontLifecycle.run, hv]
  · intro req entry hv hd hhit
    simp [CloudFrontLifecycle.run, hv, runFromCache, hd, hhit]
  · intro req err hv hmiss ho
    rw [(hstep req hv hmiss).1]
    simp [runFromOriginRequest, ho]
  · intro req req2 err hv hmiss ho ho2
    rw [(hstep req hv hmiss).1]
    simp [runFromOriginRequest, ho, ho2]
  · intro req resp hv hmiss ho
    constructor
    · rw [(hstep req hv hmiss).1]
      simp [runFromOriginRequest, ho, afterOriginRequest]
    · rw [(hstep req hv hmiss).2]
      simp [runFromOriginRequest, ho, afterOriginRequest]
  · intro req req2 resp hv hmiss ho ho2
    constructor
    · rw [(hstep req hv hmiss).1]
      simp [runFromOriginRequest, ho, ho2, afterOriginRequest]
    · rw [(hstep req hv hmiss).2]
      simp [runFromOriginRequest, ho, ho2, afterOriginRequest]

/-- Witness for the amended C2: a concrete short-circuit run writes once, and a
concrete cache-hit run writes nothing. -/
theorem run_cache_write_characterization_witness :
    (CloudFrontLifecycle.run c2Ctx c2EventB).trace.saves.length = 1 ∧
    (CloudFrontLifecycle.run c4HitCtx sampleEvent).trace.saves = [] :=
  ⟨((run_cache_write_characterization c2Ctx c2EventB).2.2.2.2.2.1 c2EventB.request response200
      rfl (Or.inl rfl) rfl).1,
   (run_cache_write_characterization c4HitCtx sampleEvent).2.2.1 sampleEvent.request cacheEntryA
      rfl rfl rfl⟩

/-- C4: with caching disabled the cache stage is skipped entirely (no lookup) and
the flow proceeds to the origin-request stage; with caching enabled, a hit
materializes the stored entry and goes straight to viewer-response with zero origin
fetches and without reaching origin-request, while a miss performs one lookup and
continues to origin-request. -/
theorem run_cache_stage_behavior (ctx : LifecycleCtx) (e : CFEvent) (req : CFRequest)
    (hv : ctx.fnSet.viewerRequest e = .ok (.next req)) :
    (ctx.options.disableCache = true →
      (CloudFrontLifecycle.run ctx e).trace.cacheLookups = 0 ∧
      (CloudFrontLifecycle.run ctx e).trace.originRequestCalls = 1) ∧
    (∀ entry, ctx.options.disableCache = false →
      ctx.retrieveFromCache { e with request := req } = some entry →
      (CloudFrontLifecycle.run ctx e).outcome =
        ctx.fnSet.viewerResponse
          (combineResult { e with request := req } (toResultResponse entry)) ∧
      (CloudFrontLifecycle.run ctx e).trace.originFetches = 0 ∧
      (CloudFrontLifecycle.run ctx e).trace.originRequestCalls = 0 ∧
      (CloudFrontLifecycle.run ctx e).trace.cacheLookups = 1) ∧
    (ctx.options.disableCache = false →
      ctx.retrieveFromCache { e with request := req } = none →
      (CloudFrontLifecycle.run ctx e).trace.cacheLookups = 1 ∧
      (CloudFrontLifecycle.run ctx e).trace.originRequestCalls = 1) := by
  refine ⟨?_, ?_, ?_⟩
  · intro hd
    constructor
    · simp [CloudFrontLifecycle.run, hv, runFromCache, hd, runFromOriginRequest_cacheLookups]
    · simp [CloudFrontLifecycle.run, hv, runFromCache, hd,
        runFromOriginRequest_originRequestCalls]
  · intro entry hd hhit
    refine ⟨?_, ?_, ?_, ?_⟩ <;> simp [CloudFrontLifecycle.run, hv, runFromCache, hd, hhit]
  · intro hd hm
    constructor
    · simp [CloudFrontLifecycle.run, hv, runFromCache, hd, hm, bumpLookup,
        runFromOriginRequest_cacheLookups]
    · simp [CloudFrontLifecycle.run, hv, runFromCache, hd, hm, bumpLookup,
        runFromOriginRequest_originRequestCalls]

/-- Witness for C4: a disabled-cache run performs no lookup, and a cache-hit run
returns the viewer-response transform of the materialized entry with no fetch. -/
theorem run_cache_stage_behavior_witness :
    (CloudFrontLifecycle.run c1Ctx eventC).trace.cacheLookups = 0 ∧
    (CloudFrontLifecycle.run c4HitCtx hitEventB).outcome =
      c4HitCtx.fnSet.viewerResponse
        (combineResult { hitEventB with request := hitEventB.request }
          (toResultResponse cacheEntryA)) ∧
    (CloudFrontLifecycle.run c4HitCtx hitEventB).trace.originFetches = 0 :=
  ⟨((run_cache_stage_behavior c1Ctx eventC eventC.request rfl).1 rfl).1,
   ((run_cache_stage_behavior c4HitCtx hitEventB hitEventB.request rfl).2.1 cacheEntryA
      rfl rfl).1,
   (((run_cache_stage_behavior c4HitCtx hitEventB hitEventB.request rfl).2.1 cacheEntryA
      rfl rfl).2.1)⟩

/-- Association lookup over an appended list falls through to the second list
exactly when the first has no entry for the key. -/
theorem lookupAssoc_append {α : Type} (l m : List (String × α)) (k : String) :
    lookupAssoc (l ++ m) k =
      (match lookupAssoc l k with
      | some v => some v
      | none => lookupAssoc m k) := by
  induction l with
  | nil => simp [lookupAssoc]
  | cons a l ih =>
    by_cases h : a.1 == k
    · simp [lookupAssoc, List.find?, h]
    · simp only [List.cons_append, lookupAssoc, List.find?, h] at ih ⊢
      exact ih

/-- Appending a default entry for a key when it is absent guarantees the key is
present afterwards. -/
theorem lookupAssoc_ensure {α : Type} (l : List (String × α)) (k : String) (d : α) :
    (lookupAssoc (if (lookupAssoc l k).isSome then l else l ++ [(k, d)]) k).isSome = true := by
  by_cases h : (lookupAssoc l k).isSome = true
  · simp [h]
  · rw [if_neg h, lookupAssoc_append]
    have hn : lookupAssoc l k = none := Option.not_isSome_iff_eq_none.mp h
    rw [hn]
    simp [lookupAssoc, List.find?]

/-- After `extractBehaviors`, a `*` behavior always exists. -/
theorem extractBehaviors_star_exists (functions : List (String × ServerlessFunction))
    (origins : List (String × Origin)) (basePath : String) :
    (lookupAssoc (extractBehaviors functions origins basePath) "*").isSome = true := by
  simp only [extractBehaviors]
  exact lookupAssoc_ensure _ "*" _

/-- C6 counterexample: a fully constructed registry (its `*` entry exists) on which
`match` nevertheless returns absent, namely for a request carrying no url. -/
theorem match_absent_url_counterexample :
    BehaviorRouter.matchBehavior (extractBehaviors [] [] "") none = none ∧
    (lookupAssoc (extractBehaviors [] [] "") "*").isSome = true :=
  ⟨rfl, rfl⟩

/-- C6 (amended): for every request carrying a non-empty url, `match` scans the
registered behaviors in registration order against the url's pathname and returns
the first whose pattern matches, otherwise the `*` entry, which always exists after
construction — so `match` never returns absent on such requests; a request with a
missing or empty url yields absent. -/
theorem match_first_pattern_or_default (functions : List (String × ServerlessFunction))
    (origins : List (String × Origin)) (basePath : String) (u : String) (hu : u ≠ "") :
    (lookupAssoc (extractBehaviors functions origins basePath) "*").isSome = true ∧
    BehaviorRouter.matchBehavior (extractBehaviors functions origins basePath) (some u) ≠
      none ∧
    (∀ pb, (extractBehaviors functions origins basePath).find?
        (fun b => patternMatches b.2.pattern (urlPathname u)) = some pb →
      BehaviorRouter.matchBehavior (extractBehaviors functions origins basePath) (some u) =
        some pb.2) ∧
    ((extractBehaviors functions origins basePath).find?
        (fun b => patternMatches b.2.pattern (urlPathname u)) = none →
      BehaviorRouter.matchBehavior (extractBehaviors functions origins basePath) (some u) =
        lookupAssoc (extractBehaviors functions origins basePath) "*") := by
  have hstar := extractBehaviors_star_exists functions origins basePath
  refine ⟨hstar, ?_, ?_, ?_⟩
  · rcases hfind : (extractBehaviors functions origins basePath).find?
        (fun b => patternMatches b.2.pattern (urlPathname u)) with _ | pb
    · simp [BehaviorRouter.matchBehavior, hu, hfind]
      exact Option.isSome_iff_ne_none.mp hstar
    · simp [BehaviorRouter.matchBehavior, hu, hfind]
  · intro pb hfind
    simp [BehaviorRouter.matchBehavior, hu, hfind]
  · intro hfind
    simp [BehaviorRouter.matchBehavior, hu, hfind]

/-- Witness for the amended C6 at a concrete registry and url. -/
theorem match_first_pattern_or_default_witness :
    ("/other" : String) ≠ "" ∧
    BehaviorRouter.matchBehavior (extractBehaviors [] [] "") (some "/other") ≠ none :=
  ⟨by decide, (match_first_pattern_or_default [] [] "" "/other" (by decide)).2.1⟩

/-- C7: without synthesized custom-origin parameters on the request, the http fetch
targets the protocol, hostname and port of the parsed origin target, the port
defaulting to 443 for https and 80 otherwise; with synthesized parameters present,
it targets the custom protocol, domain and port instead (the custom port likewise
defaulting by the custom protocol when unset). -/
theorem http_fetch_target_selection (o : Origin) (r : CFRequest) :
    (r.origin = none →
      (o.getHttpOptions r).protocol = (parseUrl o.baseUrl).protocol ∧
      (o.getHttpOptions r).hostname = (parseUrl o.baseUrl).hostname ∧
      ((parseUrl o.baseUrl).port = none →
        (o.getHttpOptions r).port =
          (if (parseUrl o.baseUrl).protocol = some "https:" then 443 else 80)) ∧
      (∀ s n, (parseUrl o.baseUrl).port = some s → strToNat? s = some n →
        (o.getHttpOptions r).port = n)) ∧
    (∀ c, r.origin = some c →
      (o.getHttpOptions r).protocol = some (c.protocol ++ ":") ∧
      (o.getHttpOptions r).hostname = some c.domainName ∧
      (c.port ≠ 0 → (o.getHttpOptions r).port = c.port) ∧
      (c.port = 0 →
        (o.getHttpOptions r).port = (if c.protocol = "https" then 443 else 80))) := by
  constructor
  · intro h
    refine ⟨?_, ?_, ?_, ?_⟩
    · simp [Origin.getHttpOptions, h]
    · simp [Origin.getHttpOptions, h]
    · intro hp
      simp [Origin.getHttpOptions, h, portOr, hp]
    · intro s n hp hn
      have hs : s ≠ "" := by
        intro hs0
        rw [hs0] at hn
        have h0 : strToNat? "" = none := by decide
        rw [h0] at hn
        exact Option.noConfusion hn
      simp [Origin.getHttpOptions, h, portOr, hp, hs, hn]
  · intro c h
    refine ⟨?_, ?_, ?_, ?_⟩
    · simp [Origin.getHttpOptions, h]
    · simp [Origin.getHttpOptions, h]
    · intro hp
      simp [Origin.getHttpOptions, h, hp]
    · intro hp
      simp [Origin.getHttpOptions, h, hp]

/-- Witness for C7: the target's own host and explicit port without custom
parameters, the custom domain and port with them. -/
theorem http_fetch_target_selection_witness :
    (origin7.getHttpOptions request7).hostname = some "origin.example" ∧
    (origin7.getHttpOptions request7).port = 8443 ∧
    (origin7.getHttpOptions request7c).hostname = some "custom.example" ∧
    (origin7.getHttpOptions request7c).port = 9000 :=
  ⟨(((http_fetch_target_selection origin7 request7).1 rfl).2.1).trans (by decide),
   ((http_fetch_target_selection origin7 request7).1 rfl).2.2.2 "8443" 8443
     (by decide) (by decide),
   ((((http_fetch_target_selection origin7 request7c).2 custom7 rfl).2.1)).trans rfl,
   (((http_fetch_target_selection origin7 request7c).2 custom7 rfl).2.2.1) (by decide)⟩

/-- Component form of the constructor's custom-origin backfill. -/
theorem backfill_eq (base : String) (c : CustomOriginInput) :
    backfillCustomOrigin base c = { c with
      domainName := if strFalsy c.domainName then (parseUrl base).hostname else c.domainName
      protocol :=
        if strFalsy c.protocol && (parseUrl base).protocol.isSome then
          (parseUrl base).protocol.map (fun s => strDropRight s 1)
        else c.protocol
      port := if natOptFalsy c.port then (parseUrl base).port.bind strToNat? else c.port } := by
  simp only [backfillCustomOrigin]
  by_cases hd : strFalsy c.domainName = true <;>
    by_cases hp : (strFalsy c.protocol && (parseUrl base).protocol.isSome) = true <;>
      by_cases hn : natOptFalsy c.port = true <;>
        simp [hd, hp, hn]

/-- An `http://` target matches the http prefix test. -/
theorem strStartsWith_prepend_http (rest : String) :
    strStartsWith ("http://" ++ rest) "http://" = true := by
  simp [strStartsWith, String.data_append, List.isPrefixOf]

/-- An `https://` target matches the https prefix test. -/
theorem strStartsWith_prepend_https (rest : String) :
    strStartsWith ("https://" ++ rest) "https://" = true := by
  simp [strStartsWith, String.data_append, List.isPrefixOf]

/-- An `https://` target does not match the http prefix test. -/
theorem https_prepend_not_http (rest : String) :
    strStartsWith ("https://" ++ rest) "http://" = false := by
  simp [strStartsWith, String.data_append, List.isPrefixOf]

/-- An `http://` target is nonempty. -/
theorem http_prepend_ne_empty (rest : String) : ("http://" ++ rest : String) ≠ "" := by
  intro h0
  have := congrArg String.data h0
  simp [String.data_append] at this

/-- An `https://` target is nonempty. -/
theorem https_prepend_ne_empty (rest : String) : ("https://" ++ rest : String) ≠ "" := by
  intro h0
  have := congrArg String.data h0
  simp [String.data_append] at this

/-- C8: the origin kind is derived exactly once from the target — empty target is
noop (the source's name for kind none), an `http://` scheme is http, an `https://`
scheme is https, any other target is resolved as a filesystem path with kind file —
the kind depends on nothing but the target, and a supplied custom-origin record has
its domain, protocol (colon stripped) and port backfilled from the parsed target
exactly when unset. Immutability holds structurally: no operation in this
development produces a modified `Origin`. -/
theorem origin_construction_kind_and_backfill (baseUrl : String)
    (co : Option CustomOriginInput) (c : CustomOriginInput) :
    (baseUrl = "" → (Origin.make baseUrl co).type = .noop) ∧
    (∀ rest, baseUrl = "http://" ++ rest → (Origin.make baseUrl co).type = .http) ∧
    (∀ rest, baseUrl = "https://" ++ rest → (Origin.make baseUrl co).type = .https) ∧
    (baseUrl ≠ "" → strStartsWith baseUrl "http://" = false →
      strStartsWith baseUrl "https://" = false →
      (Origin.make baseUrl co).type = .file ∧
      (Origin.make baseUrl co).baseUrl = pathResolve baseUrl) ∧
    (∀ co2, (Origin.make baseUrl co).type = (Origin.make baseUrl co2).type) ∧
    ((Origin.make baseUrl (some c)).customOrigin =
      some (backfillCustomOrigin (resolvedBase baseUrl) c)) ∧
    (strFalsy c.domainName = true →
      (backfillCustomOrigin (resolvedBase baseUrl) c).domainName =
        (parseUrl (resolvedBase baseUrl)).hostname) ∧
    (strFalsy c.domainName = false →
      (backfillCustomOrigin (resolvedBase baseUrl) c).domainName = c.domainName) ∧
    (strFalsy c.protocol = true → (parseUrl (resolvedBase baseUrl)).protocol.isSome = true →
      (backfillCustomOrigin (resolvedBase baseUrl) c).protocol =
        (parseUrl (resolvedBase baseUrl)).protocol.map (fun s => strDropRight s 1)) ∧
    (strFalsy c.protocol = false →
      (backfillCustomOrigin (resolvedBase baseUrl) c).protocol = c.protocol) ∧
    (natOptFalsy c.port = true →
      (backfillCustomOrigin (resolvedBase baseUrl) c).port =
        (parseUrl (resolvedBase baseUrl)).port.bind strToNat?) ∧
    (natOptFalsy c.port = false →
      (backfillCustomOrigin (resolvedBase baseUrl) c).port = c.port) := by
  refine ⟨?_, ?_, ?_, ?_, fun co2 => rfl, rfl, ?_, ?_, ?_, ?_, ?_, ?_⟩
  · intro h
    simp [Origin.make, originTypeOf, h]
  · intro rest h
    subst h
    simp [Origin.make, originTypeOf, http_prepend_ne_empty, strStartsWith_prepend_http]
  · intro rest h
    subst h
    simp [Origin.make, originTypeOf, https_prepend_ne_empty, https_prepend_not_http,
      strStartsWith_prepend_https]
  · intro h0 h1 h2
    constructor
    · simp [Origin.make, originTypeOf, h0, h1, h2]
    · simp [Origin.make, resolvedBase, originTypeOf, h0, h1, h2]
  · intro h
    rw [backfill_eq]
    simp [h]
  · intro h
    rw [backfill_eq]
    simp [h]
  · intro h1 h2
    rw [backfill_eq]
    simp [h1, h2]
  · intro h
    rw [backfill_eq]
    simp [h]
  · intro h
    rw [backfill_eq]
    simp [h]
  · intro h
    rw [backfill_eq]
    simp [h]

/-- Witness for C8 at concrete targets and an empty custom-origin record. -/
theorem origin_construction_kind_and_backfill_witness :
    (Origin.make "" (some {})).type = .noop ∧
    (Origin.make "http://h" none).type = .http ∧
    (Origin.make "files" none).type = .file ∧
    (backfillCustomOrigin (resolvedBase "https://origin.example:8443/base") {}).domainName =
      (parseUrl (resolvedBase "https://origin.example:8443/base")).hostname :=
  ⟨(origin_construction_kind_and_backfill "" (some {}) {}).1 rfl,
   (origin_construction_kind_and_backfill "http://h" none {}).2.1 "h" rfl,
   ((origin_construction_kind_and_backfill "files" none {}).2.2.2.1 (by decide) (by decide)
     (by decide)).1,
   (origin_construction_kind_and_backfill "https://origin.example:8443/base" (some {})
     {}).2.2.2.2.2.2.1 rfl⟩
